import Mathlib

/-!
Shallow embedding of the CBT journal core of the CognitiveClarifier
repository: the shared schema (src/shared/schema.ts), the in-memory
storage (src/server/storage.ts), the journal and CBT routes
(src/unnamed/part_000, which holds server/routes.ts and server/lib/openai.ts),
and the client-side CBT session state machine
(src/client/src/components/CBTJournal.tsx, function handleNextStep).

Machine integers are modelled as Int/Nat; timestamps (JS Date values) are
modelled as Nat and passed explicitly where the code calls new Date().
JSON request bodies are modelled as association lists of string keys to a
small JSON value type, which is what the zod schemas inspect.
-/

namespace CognitiveClarifier

/-- A JSON value as far as the zod schemas of this repository inspect it:
a string, a number, null, or anything else (array/object/boolean). -/
inductive JsonVal where
  | str (s : String)
  | num (n : Int)
  | null
  | other
  deriving Repr, DecidableEq

/-- A JSON object body: an association list from keys to values. -/
abbrev JsonObject := List (String × JsonVal)

/-- Key lookup in a JSON object (first occurrence wins, as in JS objects
where duplicate keys have already collapsed). -/
def lookupKey (body : JsonObject) (k : String) : Option JsonVal :=
  List.lookup k body

/-- A stored journal entry, from the journalEntries table of
src/shared/schema.ts: id serial, userId integer not null, situation /
emotion / thought text not null, challenge / reframe text nullable,
createdAt timestamp not null. -/
structure JournalEntry where
  id : Nat
  userId : Int
  situation : String
  emotion : String
  thought : String
  challenge : Option String
  reframe : Option String
  createdAt : Nat
  deriving Repr, DecidableEq

/-- The insert shape accepted by insertJournalEntrySchema
(createInsertSchema(journalEntries).pick of userId, situation, emotion,
thought, challenge, reframe). -/
structure InsertJournalEntry where
  userId : Int
  situation : String
  emotion : String
  thought : String
  challenge : Option String
  reframe : Option String
  deriving Repr, DecidableEq

/-- Parse a required string field: z.string() derived from a text not-null
column. Fails when the key is absent or not a string. -/
def parseRequiredString (body : JsonObject) (k : String) : Except Unit String :=
  match lookupKey body k with
  | some (JsonVal.str s) => Except.ok s
  | _ => Except.error ()

/-- Parse a required number field: z.number() derived from an integer
not-null column. -/
def parseRequiredNum (body : JsonObject) (k : String) : Except Unit Int :=
  match lookupKey body k with
  | some (JsonVal.num n) => Except.ok n
  | _ => Except.error ()

/-- Parse an optional nullable string field, as derived from a nullable
text column: absent and null both yield no value, a string yields the
string, anything else is a schema violation. -/
def parseOptNullableString (body : JsonObject) (k : String) :
    Except Unit (Option String) :=
  match lookupKey body k with
  | none => Except.ok none
  | some (JsonVal.str s) => Except.ok (some s)
  | some JsonVal.null => Except.ok none
  | some _ => Except.error ()

/-- Parse an optional (non-nullable) string field: z.string().optional(),
as used in the PATCH /api/journal/:id body schema. Unknown keys elsewhere
in the body are ignored, matching zod's default stripping behaviour. -/
def parseOptString (body : JsonObject) (k : String) : Except Unit (Option String) :=
  match lookupKey body k with
  | none => Except.ok none
  | some (JsonVal.str s) => Except.ok (some s)
  | some _ => Except.error ()

/-- insertJournalEntrySchema.parse from src/shared/schema.ts lines 52-59:
requires userId (number), situation, emotion, thought (strings), accepts
optional nullable challenge and reframe. drizzle-zod derives no minimum
length for any text column, so no length constraint appears here. -/
def insertJournalEntryParse (body : JsonObject) : Except Unit InsertJournalEntry := do
  let userId ← parseRequiredNum body "userId"
  let situation ← parseRequiredString body "situation"
  let emotion ← parseRequiredString body "emotion"
  let thought ← parseRequiredString body "thought"
  let challenge ← parseOptNullableString body "challenge"
  let reframe ← parseOptNullableString body "reframe"
  Except.ok ⟨userId, situation, emotion, thought, challenge, reframe⟩

/-- The update payload accepted by PATCH /api/journal/:id: only the
challenge and reframe keys, both optional strings. -/
structure UpdatePatch where
  challenge : Option String
  reframe : Option String
  deriving Repr, DecidableEq

/-- The inline zod schema of the PATCH route (src/unnamed/part_000 lines
126-129): z.object with optional challenge and optional reframe; every
other key of the body is stripped. -/
def updateDataParse (body : JsonObject) : Except Unit UpdatePatch := do
  let c ← parseOptString body "challenge"
  let r ← parseOptString body "reframe"
  Except.ok ⟨c, r⟩

/-- JS Map.set: replace the value when the key is present (keeping the
original insertion position), append otherwise. -/
def mapSet (m : List (Nat × α)) (k : Nat) (v : α) : List (Nat × α) :=
  if m.any (fun kv => kv.1 == k) then
    m.map (fun kv => if kv.1 == k then (k, v) else kv)
  else m ++ [(k, v)]

/-- JS Map.get. -/
def mapGet (m : List (Nat × α)) (k : Nat) : Option α :=
  (m.find? (fun kv => kv.1 == k)).map Prod.snd

/-- The journal slice of MemStorage (src/server/storage.ts): the
journalEntries map and its monotonic id counter. -/
structure JournalStore where
  journalEntries : List (Nat × JournalEntry)
  journalIdCounter : Nat
  deriving Repr, DecidableEq

/-- The journal slice of a freshly constructed MemStorage: empty map,
counter starting at 1. -/
def emptyStore : JournalStore := ⟨[], 1⟩

/-- MemStorage.createJournalEntry (storage.ts lines 160-169): take the
current counter as id, increment the counter, stamp createdAt with the
current time, store and return the record. -/
def createJournalEntry (store : JournalStore) (ins : InsertJournalEntry)
    (now : Nat) : JournalEntry × JournalStore :=
  let id := store.journalIdCounter
  let entry : JournalEntry :=
    ⟨id, ins.userId, ins.situation, ins.emotion, ins.thought,
      ins.challenge, ins.reframe, now⟩
  (entry, ⟨mapSet store.journalEntries id entry, id + 1⟩)

/-- MemStorage.getJournalEntries (storage.ts lines 150-154): filter the
map values by userId, then sort by createdAt descending (JS comparator
(a, b) => b.createdAt - a.createdAt, a stable comparison sort). -/
def getJournalEntries (store : JournalStore) (userId : Int) : List JournalEntry :=
  ((store.journalEntries.map Prod.snd).filter
      (fun e => e.userId == userId)).mergeSort
    (fun a b => decide (b.createdAt ≤ a.createdAt))

/-- MemStorage.getJournalEntryById (storage.ts lines 156-158). -/
def getJournalEntryById (store : JournalStore) (id : Nat) : Option JournalEntry :=
  mapGet store.journalEntries id

/-- MemStorage.updateJournalEntry (storage.ts lines 171-178): find the
existing entry; when absent return nothing and leave the store alone;
otherwise spread the patch over the existing record (a present patch key
overrides, an absent one leaves the field), store and return it. -/
def updateJournalEntry (store : JournalStore) (id : Nat) (patch : UpdatePatch) :
    Option JournalEntry × JournalStore :=
  match mapGet store.journalEntries id with
  | none => (none, store)
  | some existing =>
    let updated : JournalEntry :=
      { existing with
        challenge := match patch.challenge with
          | some c => some c
          | none => existing.challenge
        reframe := match patch.reframe with
          | some r => some r
          | none => existing.reframe }
    (some updated, { store with journalEntries := mapSet store.journalEntries id updated })

/-- POST /api/journal (src/unnamed/part_000 lines 105-116): parse the body
with insertJournalEntrySchema; a zod error yields 400 and no mutation;
otherwise create the entry and answer 201 with the created record. -/
def postJournal (store : JournalStore) (body : JsonObject) (now : Nat) :
    (Nat × Option JournalEntry) × JournalStore :=
  match insertJournalEntryParse body with
  | Except.error _ => ((400, none), store)
  | Except.ok ins =>
    let (entry, store') := createJournalEntry store ins now
    ((201, some entry), store')

/-- PATCH /api/journal/:id (src/unnamed/part_000 lines 118-143): parse the
body with the challenge/reframe-only schema (400 on violation), then
update; a missing entry yields 404, otherwise 200 with the updated
record. -/
def patchJournal (store : JournalStore) (id : Nat) (body : JsonObject) :
    (Nat × Option JournalEntry) × JournalStore :=
  match updateDataParse body with
  | Except.error _ => ((400, none), store)
  | Except.ok patch =>
    match updateJournalEntry store id patch with
    | (none, store') => ((404, none), store')
    | (some e, store') => ((200, some e), store')

/-- GET /api/journal?userId= (src/unnamed/part_000 lines 73-85) for a
valid numeric userId: 200 with the sorted entries of that user. -/
def getJournalRoute (store : JournalStore) (userId : Int) :
    Nat × List JournalEntry :=
  (200, getJournalEntries store userId)

/-- The result of the one chat-completion call made by generateCBTResponse
(server/lib/openai.ts in src/unnamed/part_000): either the call throws
(network failure, timeout, upstream error), or it returns a message body on
which JSON.parse is run — itself either failing on malformed text or
yielding a JSON object. -/
inductive ChatCallResult where
  | thrown
  | returned (parsedContent : Except Unit JsonObject)
  deriving Repr

/-- The value produced by the TypeScript cast
JSON.parse(content) as CBTAnalysisResponse: the cast performs no runtime
validation, so each of the four fields is simply whatever the parsed
object holds under that key, possibly nothing at all. -/
structure CBTCastResult where
  thoughtPattern : Option JsonVal
  patternExplanation : Option JsonVal
  challenge : Option JsonVal
  reframe : Option JsonVal
  deriving Repr, DecidableEq

/-- The unchecked cast of the parsed JSON object to CBTAnalysisResponse. -/
def castAsCBTAnalysisResponse (o : JsonObject) : CBTCastResult :=
  ⟨lookupKey o "thoughtPattern", lookupKey o "patternExplanation",
    lookupKey o "challenge", lookupKey o "reframe"⟩

/-- generateCBTResponse (src/unnamed/part_000 lines 327-363): the whole
body sits in one try/catch; a thrown call or a JSON.parse failure is
caught and rethrown as the single error string, with no retry; a
successfully parsed object is cast and returned as-is. -/
def generateCBTResponse (call : ChatCallResult) : Except String CBTCastResult :=
  match call with
  | ChatCallResult.thrown => Except.error "Failed to generate CBT analysis"
  | ChatCallResult.returned (Except.error _) =>
      Except.error "Failed to generate CBT analysis"
  | ChatCallResult.returned (Except.ok obj) =>
      Except.ok (castAsCBTAnalysisResponse obj)

/-- The module-level credential check of server/lib/openai.ts lines
311-313: it runs when the module is first imported and throws when
process.env.OPENAI_API_KEY is absent or empty (JS falsiness). -/
def openaiModuleInit (apiKeyEnv : Option String) : Except String Unit :=
  if (apiKeyEnv.getD "") = "" then
    Except.error "OPENAI_API_KEY environment variable is required. Please set it in the .replit file."
  else Except.ok ()

/-- The HTTP endpoints registered by registerRoutes in
src/unnamed/part_000. -/
inductive Route where
  | health
  | usersCreate
  | moodsList
  | moodsCreate
  | journalList
  | journalById
  | journalCreate
  | journalPatch
  | habitsList
  | habitsCreate
  | habitComplete
  | thoughtPatternsList
  | thoughtPatternById
  | meditationsList
  | meditationById
  | meditationComplete
  | cbtAnalyze
  deriving Repr, DecidableEq

/-- Every route registerRoutes installs. -/
def allRoutes : List Route :=
  [Route.health, Route.usersCreate, Route.moodsList, Route.moodsCreate,
   Route.journalList, Route.journalById, Route.journalCreate,
   Route.journalPatch, Route.habitsList, Route.habitsCreate,
   Route.habitComplete, Route.thoughtPatternsList, Route.thoughtPatternById,
   Route.meditationsList, Route.meditationById, Route.meditationComplete,
   Route.cbtAnalyze]

/-- Server startup: the routes module (src/unnamed/part_000 line 13)
imports generateCBTResponse from ./lib/openai at module load, which runs
that module and hence the credential check; only if that import succeeds
does registerRoutes run and install the routes. -/
def serverStartup (apiKeyEnv : Option String) : Except String (List Route) :=
  match openaiModuleInit apiKeyEnv with
  | Except.error e => Except.error e
  | Except.ok _ => Except.ok allRoutes

/-- The structured diagnosis as the client types it
(src/client/src/types, CBTAnalysisResponse): four string fields. -/
structure CBTAnalysisResponse where
  thoughtPattern : String
  patternExplanation : String
  challenge : String
  reframe : String
  deriving Repr, DecidableEq

/-- The values held by the react-hook-form instance of CBTJournal.tsx:
situation, emotion, thought, challenge, reframe, all defaulting to the
empty string. -/
structure CBTFormValues where
  situation : String
  emotion : String
  thought : String
  challenge : String
  reframe : String
  deriving Repr, DecidableEq

/-- The defaultValues passed to useForm in CBTJournal.tsx. -/
def defaultFormValues : CBTFormValues := ⟨"", "", "", "", ""⟩

/-- The client-local session state of CBTJournal.tsx relevant to the
wizard: currentStep (0 = SITUATION, 1 = EMOTION, 2 = THOUGHT,
3 = CHALLENGE_REFRAME), the form values, and the stored aiAnalysis. The
transient isAnalyzing flag is set and cleared inside one handleNextStep
run, so it is always false between transitions and is omitted. -/
structure SessionState where
  currentStep : Nat
  values : CBTFormValues
  aiAnalysis : Option CBTAnalysisResponse
  deriving Repr, DecidableEq

/-- The state when the journaling dialog opens: step 0, default values, no
analysis. -/
def initialSession : SessionState := ⟨0, defaultFormValues, none⟩

/-- form.trigger on the fields of the given step, per cbtFormSchema
(CBTJournal.tsx lines 23-29): situation and thought need at least 5
characters, emotion at least 2; challenge and reframe are optional, so
step 3 always validates. -/
def validateStepFields (v : CBTFormValues) (step : Nat) : Bool :=
  match step with
  | 0 => decide (5 ≤ v.situation.length)
  | 1 => decide (2 ≤ v.emotion.length)
  | 2 => decide (5 ≤ v.thought.length)
  | _ => true

/-- The outcome of the awaited getCBTAnalysis call: the resolved analysis,
or a rejection (network error, timeout, server 500). -/
inductive ClassifierOutcome where
  | success (a : CBTAnalysisResponse)
  | failure
  deriving Repr, DecidableEq

/-- Everything one run of handleNextStep produces: the next session state,
whether getCBTAnalysis was invoked, the values handed to onSubmit when the
run submits, whether form.trigger surfaced a validation error, and whether
the analysis-failed toast was shown. -/
structure StepResult where
  state : SessionState
  classifierInvoked : Bool
  submitted : Option CBTFormValues
  validationError : Bool
  analysisFailed : Bool
  deriving Repr, DecidableEq

/-- handleNextStep (CBTJournal.tsx lines 78-123): validate the current
step fields and stop on failure; at step 2 invoke the classifier — on
success store the analysis and pre-fill challenge/reframe, on failure show
a toast and keep the fields — and in either case fall through; below step
3 advance one step, at step 3 submit the current form values. -/
def handleNextStep (s : SessionState) (oracle : ClassifierOutcome) : StepResult :=
  if validateStepFields s.values s.currentStep then
    if s.currentStep == 2 then
      match oracle with
      | ClassifierOutcome.success a =>
          let s1 : SessionState :=
            { s with
              values := { s.values with challenge := a.challenge, reframe := a.reframe },
              aiAnalysis := some a }
          ⟨{ s1 with currentStep := s1.currentStep + 1 }, true, none, false, false⟩
      | ClassifierOutcome.failure =>
          ⟨{ s with currentStep := s.currentStep + 1 }, true, none, false, true⟩
    else if s.currentStep < 3 then
      ⟨{ s with currentStep := s.currentStep + 1 }, false, none, false, false⟩
    else
      ⟨s, false, some s.values, false, false⟩
  else
    ⟨s, false, none, true, false⟩

/-- handlePreviousStep (CBTJournal.tsx lines 125-127):
setCurrentStep(Math.max(0, prev - 1)), touching nothing else. -/
def handlePreviousStep (s : SessionState) : SessionState :=
  { s with currentStep := max 0 (s.currentStep - 1) }

/-- The body posted by createJournalMutation (CBTJournal.tsx lines 53-60):
the spread of the form values plus the userId. -/
def submitBody (values : CBTFormValues) (userId : Int) : JsonObject :=
  [("situation", JsonVal.str values.situation),
   ("emotion", JsonVal.str values.emotion),
   ("thought", JsonVal.str values.thought),
   ("challenge", JsonVal.str values.challenge),
   ("reframe", JsonVal.str values.reframe),
   ("userId", JsonVal.num userId)]

/-- The session state after the classifier failed on the way into
CHALLENGE_REFRAME and the user then typed their own challenge and reframe
into the form. -/
def afterFailureEdited (s : SessionState) (ce re : String) : SessionState :=
  { (handleNextStep s ClassifierOutcome.failure).state with
    values := { (handleNextStep s ClassifierOutcome.failure).state.values with
                challenge := ce, reframe := re } }

/-- The well-formedness invariant MemStorage maintains on its journal
slice: every stored key is below the counter, every record carries its own
key as id, and keys are not duplicated. It holds of the fresh store and is
preserved by createJournalEntry. -/
def storeWF (store : JournalStore) : Prop :=
  (∀ kv ∈ store.journalEntries, kv.1 < store.journalIdCounter ∧ kv.2.id = kv.1) ∧
  (store.journalEntries.map Prod.fst).Nodup

/-- Sample form values at the THOUGHT step of the spec scenario. -/
def sampleValues : CBTFormValues :=
  ⟨"Presenting to my boss", "anxious", "I will fail and everyone will judge me", "", ""⟩

/-- A session sitting on the THOUGHT step with the sample values. -/
def sampleSession : SessionState := ⟨2, sampleValues, none⟩

/-- A diagnosis the classifier could return for the sample values. -/
def sampleAnalysis : CBTAnalysisResponse :=
  ⟨"Catastrophizing", "This thought jumps to the worst case",
   "What evidence supports this", "A more balanced view is possible"⟩

/-- A POST /api/journal body whose situation (1 char), emotion (1 char)
and thought (2 chars) are all below the minimum lengths of the client form
schema. -/
def c3Body : JsonObject :=
  [("userId", JsonVal.num 1), ("situation", JsonVal.str "a"),
   ("emotion", JsonVal.str "x"), ("thought", JsonVal.str "hm")]

/-- A stored journal entry with a challenge already set. -/
def c4Entry : JournalEntry :=
  ⟨1, 1, "a bad meeting", "sad", "it went wrong", some "old challenge", none, 50⟩

/-- A store holding only that entry. -/
def c4Store : JournalStore := ⟨[(1, c4Entry)], 2⟩

/-- A PATCH body setting only the reframe. -/
def c4Body : JsonObject := [("reframe", JsonVal.str "X")]

/-- Two entries of user 7, created at distinct times, older first in
insertion order. -/
def c5EntryOld : JournalEntry :=
  ⟨1, 7, "first event", "calm", "first thought", none, none, 10⟩

/-- The later of the two entries of user 7. -/
def c5EntryNew : JournalEntry :=
  ⟨2, 7, "second event", "tense", "second thought", none, none, 20⟩

/-- A store holding both entries of user 7. -/
def c5Store : JournalStore := ⟨[(1, c5EntryOld), (2, c5EntryNew)], 3⟩

/-- A stored journal entry for the empty-patch check. -/
def c10Entry : JournalEntry :=
  ⟨1, 1, "some situation", "ok", "some thought", some "keep me", some "me too", 40⟩

/-- A store holding only that entry. -/
def c10Store : JournalStore := ⟨[(1, c10Entry)], 2⟩

/-- A PATCH body with no recognized keys at all. -/
def c10Body : JsonObject := [("foo", JsonVal.num 1), ("id", JsonVal.num 9)]


/-! ## Shared helper lemmas about the JS-Map embedding -/

/-- mapSet walks past a pair whose key differs from the one being set. -/
theorem mapSet_cons_ne (kv : Nat × α) (rest : List (Nat × α)) (k : Nat) (v : α)
    (hk : (kv.1 == k) = false) :
    mapSet (kv :: rest) k v = kv :: mapSet rest k v := by
  have hk' : ¬ (kv.1 = k) := by simpa using hk
  by_cases hrest : rest.any (fun kv => kv.1 == k)
  · simp [mapSet, List.any_cons, hk, hrest, hk']
  · simp [mapSet, List.any_cons, hk, hrest]

/-- After mapSet the key maps to the stored value. -/
theorem mapGet_mapSet_self (m : List (Nat × α)) (k : Nat) (v : α) :
    mapGet (mapSet m k v) k = some v := by
  induction m with
  | nil => simp [mapSet, mapGet]
  | cons kv rest ih =>
    by_cases hk : (kv.1 == k) = true
    · have hany : ((kv :: rest).any fun kv => kv.1 == k) = true := by
        simp [List.any_cons, hk]
      have hmap : mapSet (kv :: rest) k v =
          (kv :: rest).map (fun kv => if kv.1 == k then (k, v) else kv) := by
        simp [mapSet, hany]
      rw [hmap, List.map_cons, if_pos hk]
      simp [mapGet]
    · have hk' : (kv.1 == k) = false := by simpa using hk
      rw [mapSet_cons_ne kv rest k v hk']
      simpa [mapGet, List.find?_cons, hk'] using ih

/-- Storing back the exact value already held at a key leaves a key-unique
map unchanged. -/
theorem mapSet_self (m : List (Nat × α)) (k : Nat) (v : α)
    (hget : mapGet m k = some v)
    (huniq : ∀ kv ∈ m, kv.1 = k → kv.2 = v) :
    mapSet m k v = m := by
  obtain ⟨kv0, hfind, hsnd⟩ : ∃ kv0,
      m.find? (fun kv => kv.1 == k) = some kv0 ∧ kv0.2 = v := by
    unfold mapGet at hget
    rcases Option.map_eq_some'.mp hget with ⟨kv1, h1, h2⟩
    exact ⟨kv1, h1, h2⟩
  have hmem : kv0 ∈ m := List.mem_of_find?_eq_some hfind
  have hprop := List.find?_some hfind
  have hany : m.any (fun kv => kv.1 == k) = true :=
    List.any_eq_true.mpr ⟨kv0, hmem, hprop⟩
  unfold mapSet
  rw [if_pos hany]
  have hpt : ∀ kv ∈ m, (if kv.1 == k then (k, v) else kv) = kv := by
    intro kv hmem2
    obtain ⟨a, b⟩ := kv
    by_cases hkv : a = k
    · subst hkv
      have h2 : b = v := huniq (a, b) hmem2 rfl
      subst h2
      simp
    · simp [hkv]
  rw [List.map_congr_left hpt]
  exact List.map_id' m

/-! ## Claim theorems -/

/-- C1: when the classifier call on the THOUGHT-to-CHALLENGE_REFRAME
transition fails, handleNextStep still advances the session to step 3
(CHALLENGE_REFRAME) with the challenge and reframe fields left empty, shows
the failure toast, and does not submit; a later submission from step 3 with
user-entered challenge and reframe values fires and POST /api/journal
accepts it with 201, so classification failure never aborts the flow. -/
theorem classification_failure_resilient (s : SessionState) (store : JournalStore)
    (uid : Int) (now : Nat) (ce re : String)
    (hstep : s.currentStep = 2)
    (hth : validateStepFields s.values 2 = true)
    (hc : s.values.challenge = "") (hr : s.values.reframe = "") :
    (handleNextStep s ClassifierOutcome.failure).state.currentStep = 3 ∧
    (handleNextStep s ClassifierOutcome.failure).state.values.challenge = "" ∧
    (handleNextStep s ClassifierOutcome.failure).state.values.reframe = "" ∧
    (handleNextStep s ClassifierOutcome.failure).analysisFailed = true ∧
    (handleNextStep s ClassifierOutcome.failure).submitted = none ∧
    (handleNextStep (afterFailureEdited s ce re) ClassifierOutcome.failure).submitted =
      some (afterFailureEdited s ce re).values ∧
    (afterFailureEdited s ce re).values.challenge = ce ∧
    (afterFailureEdited s ce re).values.reframe = re ∧
    (postJournal store (submitBody (afterFailureEdited s ce re).values uid) now).1.1 = 201 ∧
    (postJournal store (submitBody (afterFailureEdited s ce re).values uid) now).1.2 =
      some (createJournalEntry store
        ⟨uid, (afterFailureEdited s ce re).values.situation,
          (afterFailureEdited s ce re).values.emotion,
          (afterFailureEdited s ce re).values.thought, some ce, some re⟩ now).1 := by
  have h1 : handleNextStep s ClassifierOutcome.failure =
      ⟨{ s with currentStep := s.currentStep + 1 }, true, none, false, true⟩ := by
    simp [handleNextStep, hstep, hth]
  have h2 : afterFailureEdited s ce re =
      ⟨3, { s.values with challenge := ce, reframe := re }, s.aiAnalysis⟩ := by
    simp [afterFailureEdited, h1, hstep]
  refine ⟨?_, ?_, ?_, ?_, ?_, ?_, ?_, ?_, ?_, ?_⟩
  · rw [h1]; simp [hstep]
  · rw [h1]; exact hc
  · rw [h1]; exact hr
  · rw [h1]
  · rw [h1]
  · rw [h2]; simp [handleNextStep, validateStepFields]
  · rw [h2]
  · rw [h2]
  · rw [h2]
    simp [postJournal, insertJournalEntryParse, parseRequiredNum,
      parseRequiredString, parseOptNullableString, lookupKey, submitBody, List.lookup,
      createJournalEntry, bind, Except.bind]
  · rw [h2]
    simp [postJournal, insertJournalEntryParse, parseRequiredNum,
      parseRequiredString, parseOptNullableString, lookupKey, submitBody, List.lookup,
      createJournalEntry, bind, Except.bind]

/-- C1 witness: the resilience theorem applied to a concrete session at the
THOUGHT step over the empty store. -/
theorem classification_failure_resilient_witness :
    (handleNextStep sampleSession ClassifierOutcome.failure).state.currentStep = 3 ∧
    (postJournal emptyStore
      (submitBody (afterFailureEdited sampleSession "my challenge" "my reframe").values 1)
      100).1.1 = 201 :=
  ⟨(classification_failure_resilient sampleSession emptyStore 1 100 "my challenge"
      "my reframe" rfl (by decide) rfl rfl).1,
   (classification_failure_resilient sampleSession emptyStore 1 100 "my challenge"
      "my reframe" rfl (by decide) rfl rfl).2.2.2.2.2.2.2.2.1⟩

/-- C2 counterexample: in a concrete session the classifier is invoked on
the first THOUGHT-to-CHALLENGE_REFRAME transition and invoked again after
navigating back from CHALLENGE_REFRAME and forward once more — the
diagnosis is re-fetched within the same session, contrary to the claim that
backward-then-forward navigation triggers no re-classification. -/
theorem reclassification_on_back_and_forward :
    (handleNextStep sampleSession (ClassifierOutcome.success sampleAnalysis)).classifierInvoked
      = true ∧
    (handleNextStep (handlePreviousStep
        (handleNextStep sampleSession (ClassifierOutcome.success sampleAnalysis)).state)
      (ClassifierOutcome.success sampleAnalysis)).classifierInvoked = true := by decide

/-- C2 amended: the classifier is invoked on every validated forward
transition out of the THOUGHT step; in particular navigating backward from
CHALLENGE_REFRAME and then forward again triggers a re-classification. -/
theorem classifier_invoked_on_every_thought_transition (s : SessionState)
    (o : ClassifierOutcome) (h2 : s.currentStep = 2)
    (hv : validateStepFields s.values 2 = true) :
    (handleNextStep s o).classifierInvoked = true ∧
    (handleNextStep (handlePreviousStep (handleNextStep s o).state) o).classifierInvoked
      = true := by
  have hv' : 5 ≤ s.values.thought.length := by simpa [validateStepFields] using hv
  cases o with
  | success a =>
      simp [handleNextStep, handlePreviousStep, h2, hv', validateStepFields]
  | failure =>
      simp [handleNextStep, handlePreviousStep, h2, hv', validateStepFields]

/-- C2 amended witness: the amended theorem at the concrete sample
session. -/
theorem classifier_invoked_on_every_thought_transition_witness :
    (handleNextStep (handlePreviousStep
        (handleNextStep sampleSession (ClassifierOutcome.success sampleAnalysis)).state)
      (ClassifierOutcome.success sampleAnalysis)).classifierInvoked = true :=
  (classifier_invoked_on_every_thought_transition sampleSession
    (ClassifierOutcome.success sampleAnalysis) rfl (by decide)).2

/-- C3 counterexample: a POST /api/journal body whose situation has 1
character, emotion 1 character and thought 2 characters — all below the
claimed minimums — is accepted with status 201 and the entry is stored,
not rejected with 400. -/
theorem short_fields_accepted_by_post_journal :
    (postJournal emptyStore c3Body 100).1.1 = 201 ∧
    (postJournal emptyStore c3Body 100).2.journalEntries =
      [(1, ⟨1, 1, "a", "x", "hm", none, none, 100⟩)] := by decide

/-- C3 amended: POST /api/journal validates only presence and JSON types of
the fields — the schema derived from the table carries no minimum lengths —
so every well-typed body, however short its strings, is accepted with 201
and the created entry is stored; the 5/2/5 minimums exist only in the
client-side form schema. -/
theorem post_journal_checks_types_only (store : JournalStore) (body : JsonObject)
    (ins : InsertJournalEntry) (now : Nat)
    (hp : insertJournalEntryParse body = Except.ok ins) :
    (postJournal store body now).1.1 = 201 ∧
    (postJournal store body now).1.2 = some (createJournalEntry store ins now).1 ∧
    getJournalEntryById (postJournal store body now).2 store.journalIdCounter =
      some (createJournalEntry store ins now).1 := by
  have h1 : postJournal store body now =
      ((201, some (createJournalEntry store ins now).1),
        (createJournalEntry store ins now).2) := by
    simp [postJournal, hp]
  refine ⟨by rw [h1], by rw [h1], ?_⟩
  rw [h1]
  exact mapGet_mapSet_self store.journalEntries store.journalIdCounter _

/-- C3 amended witness: the amended theorem at the short-field body over
the empty store. -/
theorem post_journal_checks_types_only_witness :
    (postJournal emptyStore c3Body 100).1.1 = 201 :=
  (post_journal_checks_types_only emptyStore c3Body
    ⟨1, "a", "x", "hm", none, none⟩ 100 rfl).1

/-- C4: PATCH /api/journal/:id with a body parsing to a challenge/reframe
patch either answers 404 and leaves the store untouched when no entry has
that id, or answers 200 with an updated record whose id, userId, situation,
emotion, thought and createdAt are unchanged and whose challenge and
reframe take the patch value when supplied and the existing value
otherwise, the store changing only at that id. -/
theorem patch_updates_only_named_fields (store : JournalStore) (id : Nat)
    (body : JsonObject) (patch : UpdatePatch)
    (hp : updateDataParse body = Except.ok patch) :
    (getJournalEntryById store id = none →
      patchJournal store id body = ((404, none), store)) ∧
    (∀ e, getJournalEntryById store id = some e →
      ∃ u, patchJournal store id body =
          ((200, some u),
            { store with journalEntries := mapSet store.journalEntries id u }) ∧
        u.id = e.id ∧ u.userId = e.userId ∧ u.situation = e.situation ∧
        u.emotion = e.emotion ∧ u.thought = e.thought ∧ u.createdAt = e.createdAt ∧
        u.challenge = (match patch.challenge with
          | some c => some c
          | none => e.challenge) ∧
        u.reframe = (match patch.reframe with
          | some r => some r
          | none => e.reframe)) := by
  constructor
  · intro hnone
    have hn' : mapGet store.journalEntries id = none := hnone
    simp [patchJournal, hp, updateJournalEntry, hn']
  · intro e he
    have he' : mapGet store.journalEntries id = some e := he
    refine ⟨{ e with
        challenge := match patch.challenge with
          | some c => some c
          | none => e.challenge,
        reframe := match patch.reframe with
          | some r => some r
          | none => e.reframe },
      ?_, rfl, rfl, rfl, rfl, rfl, rfl, rfl, rfl⟩
    simp [patchJournal, hp, updateJournalEntry, he']

/-- C4 witness: the partial-update theorem at a concrete one-entry store
with a reframe-only patch. -/
theorem patch_updates_only_named_fields_witness :
    (patchJournal c4Store 1 c4Body).1.1 = 200 := by
  obtain ⟨u, hu, -, -, -, -, -, -, -, -⟩ :=
    (patch_updates_only_named_fields c4Store 1 c4Body ⟨none, some "X"⟩ rfl).2
      c4Entry rfl
  rw [hu]

/-- C5: for entries with pairwise distinct creation times, GET
/api/journal?userId=U returns exactly the stored entries whose userId is U,
arranged strictly by createdAt descending. -/
theorem journal_list_exactly_user_sorted_desc (store : JournalStore) (uid : Int)
    (hdist : (store.journalEntries.map Prod.snd).Pairwise
      (fun a b => a.createdAt ≠ b.createdAt)) :
    (∀ e, e ∈ (getJournalRoute store uid).2 ↔
      e ∈ store.journalEntries.map Prod.snd ∧ e.userId = uid) ∧
    ((getJournalRoute store uid).2).Pairwise
      (fun a b => b.createdAt < a.createdAt) := by
  constructor
  · intro e
    simp [getJournalRoute, getJournalEntries, List.mem_mergeSort, List.mem_filter]
  · have hsorted := @List.sorted_mergeSort JournalEntry
      (fun a b : JournalEntry => decide (b.createdAt ≤ a.createdAt))
      (fun a b c hab hbc => by
        simp only [decide_eq_true_eq] at *
        exact le_trans hbc hab)
      (fun a b => by
        rcases Nat.le_total b.createdAt a.createdAt with h | h <;> simp [h])
      ((store.journalEntries.map Prod.snd).filter (fun e => e.userId == uid))
    have hge : ((getJournalRoute store uid).2).Pairwise
        (fun a b => b.createdAt ≤ a.createdAt) := by
      refine List.Pairwise.imp ?_ hsorted
      intro a b h
      simpa using h
    have hfiltered : ((store.journalEntries.map Prod.snd).filter
        (fun e => e.userId == uid)).Pairwise (fun a b => a.createdAt ≠ b.createdAt) :=
      List.Pairwise.sublist (List.filter_sublist _) hdist
    have hperm : List.Perm ((getJournalRoute store uid).2)
        ((store.journalEntries.map Prod.snd).filter (fun e => e.userId == uid)) :=
      List.mergeSort_perm _ _
    have hne : ((getJournalRoute store uid).2).Pairwise
        (fun a b => a.createdAt ≠ b.createdAt) :=
      (List.Perm.pairwise_iff (fun h => h.symm) hperm).mpr hfiltered
    refine List.Pairwise.imp ?_ (List.Pairwise.and hge hne)
    intro a b h
    exact lt_of_le_of_ne h.1 (Ne.symm h.2)

/-- C5 witness: the ordering theorem at a concrete two-entry store for
user 7. -/
theorem journal_list_exactly_user_sorted_desc_witness :
    ((getJournalRoute c5Store 7).2).Pairwise
      (fun a b => b.createdAt < a.createdAt) :=
  (journal_list_exactly_user_sorted_desc c5Store 7
    (by simp [c5Store, c5EntryOld, c5EntryNew])).2

/-- C6: when the current step fields fail validation, handleNextStep
leaves the whole session state unchanged and reports a field-level
validation error; in particular advancing past SITUATION with an empty
situation string changes nothing. -/
theorem forward_block_on_invalid_input (s : SessionState) (o : ClassifierOutcome) :
    (validateStepFields s.values s.currentStep = false →
      handleNextStep s o = ⟨s, false, none, true, false⟩) ∧
    (s.currentStep = 0 → s.values.situation = "" →
      handleNextStep s o = ⟨s, false, none, true, false⟩) := by
  constructor
  · intro h
    simp [handleNextStep, h]
  · intro h0 hsit
    have hval : validateStepFields s.values s.currentStep = false := by
      rw [h0]
      simp [validateStepFields, hsit]
    simp [handleNextStep, hval]

/-- C6 witness: the forward-block theorem at the initial session, whose
situation is empty. -/
theorem forward_block_on_invalid_input_witness :
    handleNextStep initialSession ClassifierOutcome.failure =
      ⟨initialSession, false, none, true, false⟩ :=
  (forward_block_on_invalid_input initialSession ClassifierOutcome.failure).2 rfl rfl

/-- C7 counterexample: a chat response that parses as a JSON object holding
only thoughtPattern is returned as a success whose other three fields are
absent — the unchecked cast does not enforce that all four fields are
present together. -/
theorem partial_diagnosis_accepted :
    generateCBTResponse (ChatCallResult.returned (Except.ok
        [("thoughtPattern", JsonVal.str "Catastrophizing")])) =
      Except.ok ⟨some (JsonVal.str "Catastrophizing"), none, none, none⟩ := rfl

/-- C7 amended: every call failure or unparseable response surfaces as the
single undifferentiated error string with no retry, and every parseable
response is returned as a success carrying exactly the fields the object
happens to hold (no validation that all four are present); a missing
credential is reported by the module-load check with a distinct error, not
as the per-call classification error. -/
theorem classifier_failure_collapsed :
    (∀ call : ChatCallResult,
      generateCBTResponse call = Except.error "Failed to generate CBT analysis" ∨
      ∃ obj, call = ChatCallResult.returned (Except.ok obj) ∧
        generateCBTResponse call = Except.ok (castAsCBTAnalysisResponse obj)) ∧
    openaiModuleInit none = Except.error
      "OPENAI_API_KEY environment variable is required. Please set it in the .replit file." := by
  constructor
  · intro call
    cases call with
    | thrown => exact Or.inl rfl
    | returned p =>
      cases p with
      | error e => exact Or.inl rfl
      | ok obj => exact Or.inr ⟨obj, rfl, rfl⟩
  · rfl

/-- C8 counterexample: with the credential absent, server startup itself
fails — so no capability at all is available, not merely /cbt/analyze. -/
theorem startup_fails_entirely_without_key :
    serverStartup none = Except.error
      "OPENAI_API_KEY environment variable is required. Please set it in the .replit file." ∧
    (serverStartup none).isOk = false := ⟨rfl, rfl⟩

/-- C8 amended: an absent or empty credential makes the whole process fail
at startup (the routes module imports the classifier module, whose
module-level check throws), so the journal, mood, habit and meditation
endpoints do not start either; with any nonempty credential every route,
including /cbt/analyze, registers. -/
theorem credential_absence_is_global_startup_failure (k : String) (hk : k ≠ "") :
    serverStartup none = Except.error
      "OPENAI_API_KEY environment variable is required. Please set it in the .replit file." ∧
    serverStartup (some "") = Except.error
      "OPENAI_API_KEY environment variable is required. Please set it in the .replit file." ∧
    serverStartup (some k) = Except.ok allRoutes ∧
    Route.journalCreate ∈ allRoutes ∧ Route.cbtAnalyze ∈ allRoutes := by
  refine ⟨rfl, rfl, ?_, by decide, by decide⟩
  simp [serverStartup, openaiModuleInit, hk]

/-- C8 amended witness: the startup theorem at a concrete nonempty key. -/
theorem credential_absence_is_global_startup_failure_witness :
    serverStartup (some "sk-test") = Except.ok allRoutes :=
  (credential_absence_is_global_startup_failure "sk-test" (by decide)).2.2.1

/-- C9: on a well-formed store, createJournalEntry assigns the current
counter as the new id — strictly greater than every previously assigned id
and hence never reused — stamps createdAt with the creation time, stores
the record, returns exactly the stored record, increments the counter, and
preserves the well-formedness invariant. -/
theorem create_assigns_fresh_monotonic_id (store : JournalStore)
    (ins : InsertJournalEntry) (now : Nat) (hwf : storeWF store) :
    (createJournalEntry store ins now).1.id = store.journalIdCounter ∧
    (∀ kv ∈ store.journalEntries, kv.1 < (createJournalEntry store ins now).1.id) ∧
    (createJournalEntry store ins now).1.createdAt = now ∧
    getJournalEntryById (createJournalEntry store ins now).2
        (createJournalEntry store ins now).1.id =
      some (createJournalEntry store ins now).1 ∧
    (createJournalEntry store ins now).2.journalIdCounter = store.journalIdCounter + 1 ∧
    storeWF (createJournalEntry store ins now).2 := by
  obtain ⟨hlt, hnodup⟩ := hwf
  refine ⟨rfl, ?_, rfl, ?_, rfl, ?_, ?_⟩
  · intro kv hkv
    exact (hlt kv hkv).1
  · exact mapGet_mapSet_self store.journalEntries store.journalIdCounter _
  · intro kv hkv
    have hanyf : store.journalEntries.any
        (fun kv => kv.1 == store.journalIdCounter) = false := by
      rw [List.any_eq_false]
      intro x hx
      have := (hlt x hx).1
      simp [Nat.ne_of_lt this]
    have hset : (createJournalEntry store ins now).2.journalEntries =
        store.journalEntries ++
          [(store.journalIdCounter, (createJournalEntry store ins now).1)] := by
      simp [createJournalEntry, mapSet, hanyf]
    rw [hset] at hkv
    rcases List.mem_append.mp hkv with h | h
    · exact ⟨Nat.lt_succ_of_lt (hlt kv h).1, (hlt kv h).2⟩
    · simp only [List.mem_singleton] at h
      subst h
      exact ⟨Nat.lt_succ_self _, rfl⟩
  · have hanyf : store.journalEntries.any
        (fun kv => kv.1 == store.journalIdCounter) = false := by
      rw [List.any_eq_false]
      intro x hx
      have := (hlt x hx).1
      simp [Nat.ne_of_lt this]
    have hset : (createJournalEntry store ins now).2.journalEntries =
        store.journalEntries ++
          [(store.journalIdCounter, (createJournalEntry store ins now).1)] := by
      simp [createJournalEntry, mapSet, hanyf]
    rw [hset, List.map_append]
    refine List.Nodup.append hnodup (by simp) ?_
    intro x hx hy
    simp only [List.map_cons, List.map_nil, List.mem_singleton] at hy
    subst hy
    rcases List.mem_map.mp hx with ⟨kv, hkv, hfst⟩
    exact absurd (hfst ▸ (hlt kv hkv).1) (lt_irrefl _)

/-- C9 witness: the fresh-id theorem at the empty store. -/
theorem create_assigns_fresh_monotonic_id_witness :
    (createJournalEntry emptyStore ⟨1, "a bad meeting", "sad", "it went wrong", none, none⟩
        100).1.id = 1 :=
  (create_assigns_fresh_monotonic_id emptyStore
    ⟨1, "a bad meeting", "sad", "it went wrong", none, none⟩ 100
    ⟨by simp [emptyStore], by simp [emptyStore]⟩).1

/-- C10: a PATCH /api/journal/:id body containing neither a challenge nor a
reframe key — the empty object or one with only unrecognized keys, which
zod strips — succeeds with 200 against an existing entry and acts as an
identity update, returning the entry and leaving the store unchanged. -/
theorem empty_patch_is_identity (store : JournalStore) (id : Nat) (e : JournalEntry)
    (body : JsonObject)
    (he : getJournalEntryById store id = some e)
    (hc : lookupKey body "challenge" = none)
    (hr : lookupKey body "reframe" = none)
    (huniq : ∀ kv ∈ store.journalEntries, kv.1 = id → kv.2 = e) :
    patchJournal store id body = ((200, some e), store) := by
  have he' : mapGet store.journalEntries id = some e := he
  have hparse : updateDataParse body = Except.ok ⟨none, none⟩ := by
    simp [updateDataParse, parseOptString, hc, hr, bind, Except.bind]
  have hm : mapSet store.journalEntries id e = store.journalEntries :=
    mapSet_self store.journalEntries id e he' huniq
  have hupd : updateJournalEntry store id ⟨none, none⟩ = (some e, store) := by
    simp [updateJournalEntry, he', hm]
  simp [patchJournal, hparse, hupd]

/-- C10 witness: the identity-update theorem at a concrete one-entry store
and a body holding only unrecognized keys. -/
theorem empty_patch_is_identity_witness :
    patchJournal c10Store 1 c10Body = ((200, some c10Entry), c10Store) :=
  empty_patch_is_identity c10Store 1 c10Entry c10Body (by decide) (by decide)
    (by decide) (by decide)

end CognitiveClarifier
